import Mathlib

/-!
# kokutas/serial: a shallow embedding of the Windows serial port layer

The Go sources `serial.go`, `validator.go` and `serial_windows.go` are embedded as
state-passing functions over an explicit model of the operating system (`World`).

Modelling conventions:

* Go strings are modelled by Lean strings (well-formed UTF-8 text), byte slices by lists.
* `uint`, `uint8`, `uint32`, `byte` values are natural numbers, truncated with an explicit
  `% 2 ^ 32` where the source converts to `uint32`; `time.Duration` (an `int64` count of
  nanoseconds) and `int64` locals are integers.
* Every native call appends itself to `World.trace` and takes its answer from `World.script`
  (an exhausted script answers "success"), so each function is defined for every behaviour of
  the operating system.  Kernel objects are tracked in `World.live`, with counters of the
  objects acquired and released.
* The mutexes `rl` and `wl` are not modelled: the embedding is sequential.
-/

namespace Serial

/-! ## Errors and native records -/

/-- Windows handle values (`syscall.Handle`). -/
abbrev Handle := Nat

/-- Windows error numbers (`syscall.Errno`). -/
abbrev Errno := Nat

/-- The value of `syscall.ERROR_IO_PENDING`. -/
def ERROR_IO_PENDING : Errno := 997

/-- The error number standing for `syscall.EINVAL`, one of the invented values above
`1 << 29`; only its being different from the other error numbers matters. -/
def EINVAL : Errno := 2 ^ 29 + 39

/-- The value of `ERROR_INVALID_HANDLE`. -/
def ERROR_INVALID_HANDLE : Errno := 6

/-- Go `error` values produced by the package. -/
inductive Error where
  /-- A `syscall.Errno` returned by a native call. -/
  | errno (e : Errno)
  /-- The value `ErrBadDataBits`. -/
  | ErrBadDataBits
  /-- The value `ErrBadStopBits`. -/
  | ErrBadStopBits
  /-- The value `ErrBadParity`. -/
  | ErrBadParity
  /-- An `errors.New` or `fmt.Errorf` value with the given text. -/
  | New (text : String)
  /-- A field error of the structure validator: the field and the tag that failed. -/
  | validation (field : String) (tag : String)
  /-- The value `os.ErrInvalid`, returned by methods of a nil `*os.File`. -/
  | ErrInvalid
  /-- The `*os.PathError` of a `close` on the given path wrapping `os.ErrClosed`. -/
  | ErrClosed (path : String)
  deriving DecidableEq, Repr

/-- The record `dcb` of `serial_windows.go`. -/
structure dcb where
  DCBlength : Nat := 0
  BaudRate : Nat := 0
  flags : List Nat := [0, 0, 0, 0]
  wReserved : Nat := 0
  XonLim : Nat := 0
  XoffLim : Nat := 0
  ByteSize : Nat := 0
  Parity : Nat := 0
  StopBits : Nat := 0
  XonChar : Nat := 0
  XoffChar : Nat := 0
  ErrorChar : Nat := 0
  EofChar : Nat := 0
  EvtChar : Nat := 0
  wReserved1 : Nat := 0
  deriving DecidableEq, Repr

/-- The record `rwTimeouts` of `serial_windows.go`. -/
structure rwTimeouts where
  ReadIntervalTimeout : Nat := 0
  ReadTotalTimeoutMultiplier : Nat := 0
  ReadTotalTimeoutConstant : Nat := 0
  WriteTotalTimeoutMultiplier : Nat := 0
  WriteTotalTimeoutConstant : Nat := 0
  deriving DecidableEq, Repr

/-! ## The operating system -/

/-- The native entry points the package calls, with the arguments it passes. -/
inductive NativeCall where
  | CreateFile (name : String) (access share creation attrs : Nat)
  | CloseHandle (h : Handle)
  | SetCommState (h : Handle) (params : dcb)
  | SetupComm (h : Handle) (inQueue outQueue : Nat)
  | SetCommTimeouts (h : Handle) (timeouts : rwTimeouts)
  | SetCommMask (h : Handle) (mask : Nat)
  | CreateEvent (manualReset initialState : Nat)
  | ResetEvent (h : Handle)
  | WriteFile (h : Handle) (buf : List Nat) (hEvent : Handle)
  | ReadFile (h : Handle) (len : Nat) (hEvent : Handle)
  | GetOverlappedResult (h : Handle) (hEvent : Handle) (wait : Nat)
  | PurgeComm (h : Handle) (flags : Nat)
  deriving DecidableEq, Repr

/-- The answer of the operating system to one native call: success with an output count,
or failure with an error number and the output count written so far. -/
inductive Reply where
  | ok (n : Nat)
  | fail (e : Errno) (n : Nat)
  deriving DecidableEq, Repr

/-- The state of the operating system seen by the package. -/
structure World where
  /-- The answers to the coming native calls; an empty script answers `Reply.ok 0`. -/
  script : List Reply := []
  /-- The native calls performed so far, oldest first. -/
  trace : List NativeCall := []
  /-- The kernel objects (device handles and event objects) currently allocated. -/
  live : List Handle := []
  /-- The last handle value given out. -/
  next : Handle := 0
  /-- The number of kernel objects acquired so far. -/
  acquired : Nat := 0
  /-- The number of kernel objects released so far. -/
  released : Nat := 0
  deriving DecidableEq, Repr

/-- Perform one native call: log it and take the next answer of the script. -/
def World.call (w : World) (c : NativeCall) : Reply × World :=
  (w.script.headD (Reply.ok 0), { w with script := w.script.tail, trace := w.trace ++ [c] })

/-- Allocate a fresh kernel object (never the null handle). -/
def World.alloc (w : World) : Handle × World :=
  (w.next + 1,
    { w with next := w.next + 1, live := w.live ++ [w.next + 1], acquired := w.acquired + 1 })

/-- The native `CloseHandle`, whose answer is fixed by the state and not taken from the
script: it releases an allocated object, and fails with `ERROR_INVALID_HANDLE` on a
handle that is not allocated. -/
def World.closeHandle (w : World) (h : Handle) : Option Error × World :=
  let w1 : World := { w with trace := w.trace ++ [NativeCall.CloseHandle h] }
  if h ∈ w1.live then
    (none, { w1 with live := w1.live.erase h, released := w1.released + 1 })
  else
    (some (Error.errno ERROR_INVALID_HANDLE), w1)

/-- The resource part of the world: the allocated objects, the last handle given out, and
the two counters. -/
def World.res (w : World) : List Handle × Handle × Nat × Nat :=
  (w.live, w.next, w.acquired, w.released)

/-- A `syscall.SyscallN` on an entry point that returns a `BOOL`: `r == 0` gives the error. -/
def syscallBool (c : NativeCall) (w : World) : Option Error × World :=
  match w.call c with
  | (Reply.ok _, w1) => (none, w1)
  | (Reply.fail e _, w1) => (some (Error.errno e), w1)

/-! ## `serial_windows.go`: timeouts -/

/-- The constant `MAXDWORD = 1<<32 - 1` of `setCommTimeouts`. -/
def MAXDWORD : Int := 2 ^ 32 - 1

/-- The final value of the local `timeoutMs` (an `int64`) of `setCommTimeouts`. -/
def timeoutMs (readTimeout : Int) : Int :=
  -- blocking read by default
  let timeoutMs : Int := MAXDWORD - 1
  if readTimeout > 0 then
    -- non-blocking read
    let timeoutMs := readTimeout.tdiv 1000000
    if timeoutMs < 1 then 1
    else if timeoutMs > MAXDWORD - 1 then MAXDWORD - 1
    else timeoutMs
  else timeoutMs

/-- The conversion `uint32(x)` of an `int64`. -/
def toUint32 (x : Int) : Nat := (x % 2 ^ 32).toNat

/-- The function `setCommTimeouts`. -/
def setCommTimeouts (h : Handle) (readTimeout : Int) (w : World) : Option Error × World :=
  let timeouts : rwTimeouts :=
    { ReadIntervalTimeout := toUint32 MAXDWORD
      ReadTotalTimeoutMultiplier := toUint32 MAXDWORD
      ReadTotalTimeoutConstant := toUint32 (timeoutMs readTimeout) }
  syscallBool (NativeCall.SetCommTimeouts h timeouts) w

/-! ## Strings -/

/-- The predicate `unicode.IsSpace`. -/
def isSpace (c : Char) : Bool :=
  let r := c.toNat
  r ∈ [0x09, 0x0A, 0x0B, 0x0C, 0x0D, 0x20, 0x85, 0xA0] ||
    r == 0x1680 || (0x2000 ≤ r && r ≤ 0x200A) ||
    r ∈ [0x2028, 0x2029, 0x202F, 0x205F, 0x3000]

/-- The function `strings.TrimSpace`: leading and trailing white space removed. -/
def TrimSpace (s : String) : String :=
  ⟨(s.data.dropWhile isSpace).rdropWhile isSpace⟩

/-- The first statement of `open`:
`if len(strings.TrimSpace(address)) > 0 && address[0] != '\\' { address = "\\\\.\\" + address }`.
The result `none` stands for the run-time panic of an index out of range in `address[0]`. -/
def qualifyAddress (address : String) : Option String :=
  if (TrimSpace address).length > 0 then
    match address.data with
    | [] => none
    | c :: _ => if c ≠ '\\' then some ("\\\\.\\" ++ address) else some address
  else some address

/-- The function `syscall.UTF16PtrFromString`: a string with a NUL gives `EINVAL`. -/
def UTF16PtrFromString (s : String) : Except Error String :=
  if Char.ofNat 0 ∈ s.data then Except.error (Error.errno EINVAL) else Except.ok s

/-- The function `syscall.errnoErr`: the error value of a failed wrapper of package
`syscall`, where error number zero is reported as `EINVAL`. -/
def errnoErr (e : Errno) : Error :=
  if e = 0 then Error.errno EINVAL else Error.errno e

/-! ## Files and ports -/

/-- An `os.File` made by `os.NewFile`: the handle, the name, and whether `Close` has run. -/
structure File where
  fd : Handle
  name : String
  closed : Bool := false
  deriving DecidableEq, Repr

/-- The method `(*os.File).Close`, on a possibly nil file.  A nil file gives `os.ErrInvalid`;
a file that `Close` has been called on gives the "file already closed" error without any
native call ("Close will return an error if it has already been called"); otherwise the
handle is closed natively and the file is marked closed. -/
def File.Close (f : Option File) (w : World) : Option Error × Option File × World :=
  match f with
  | none => (some Error.ErrInvalid, none, w)
  | some f =>
    if f.closed then (some (Error.ErrClosed f.name), some f, w)
    else
      let r := w.closeHandle f.fd
      (r.1, some { f with closed := true }, r.2)

/-- The record `syscall.Overlapped`, of which only the event handle is used. -/
structure Overlapped where
  HEvent : Handle
  deriving DecidableEq, Repr

/-- The record `port` of `serial_windows.go` (without its two mutexes). -/
structure port where
  f : Option File
  fd : Handle
  ro : Overlapped
  wo : Overlapped
  deriving DecidableEq, Repr

/-! ## `serial.go`: constants -/

/-- The parity constant `PARITY_NONE = 'N'`. -/
def PARITY_NONE : Nat := 78
/-- The parity constant `PARITY_ODD = 'O'`. -/
def PARITY_ODD : Nat := 79
/-- The parity constant `PARITY_EVEN = 'E'`. -/
def PARITY_EVEN : Nat := 69
/-- The parity constant `PARITY_MARK = 'M'`. -/
def PARITY_MARK : Nat := 77
/-- The parity constant `PARITY_SPACE = 'S'`. -/
def PARITY_SPACE : Nat := 83

/-- The stop-bit constant `STOP_ONE`. -/
def STOP_ONE : Nat := 1
/-- The stop-bit constant `STOP_ONE_HALF` (one and a half). -/
def STOP_ONE_HALF : Nat := 15
/-- The stop-bit constant `STOP_TWO`. -/
def STOP_TWO : Nat := 2

/-- The default baud rate. -/
def DEFAULT_BAUD_RATE : Nat := 9600
/-- The default parity. -/
def DEFAULT_PARITY : Nat := PARITY_NONE
/-- The default number of data bits. -/
def DEFAULT_DATA_BITS : Nat := 8
/-- The default stop bits. -/
def DEFAULT_STOP_BITS : Nat := STOP_ONE

/-! ## `serial_windows.go`: native glue -/

/-- The `switch parity` of `setCommState`; `none` is its `default` branch. -/
def parityCode (parity : Nat) : Option Nat :=
  if parity = PARITY_NONE then some 0
  else if parity = PARITY_ODD then some 1
  else if parity = PARITY_EVEN then some 2
  else if parity = PARITY_MARK then some 3
  else if parity = PARITY_SPACE then some 4
  else none

/-- The `switch stopbits` of `setCommState`; `none` is its `default` branch. -/
def stopBitsCode (stopbits : Nat) : Option Nat :=
  if stopbits = STOP_ONE then some 0
  else if stopbits = STOP_ONE_HALF then some 1
  else if stopbits = STOP_TWO then some 2
  else none

/-- The function `setCommState`. -/
def setCommState (h : Handle) (baud databits parity stopbits : Nat) (w : World) :
    Option Error × World :=
  let params : dcb :=
    { DCBlength := 28
      flags := [0x01 ||| 0x10, 0, 0, 0]
      BaudRate := baud % 2 ^ 32
      ByteSize := databits }
  match parityCode parity with
  | none => (some Error.ErrBadParity, w)
  | some pc =>
    match stopBitsCode stopbits with
    | none => (some Error.ErrBadStopBits, w)
    | some sc =>
      syscallBool (NativeCall.SetCommState h { params with Parity := pc, StopBits := sc }) w

/-- The function `setupComm`. -/
def setupComm (h : Handle) (inQueue outQueue : Nat) (w : World) : Option Error × World :=
  syscallBool (NativeCall.SetupComm h inQueue outQueue) w

/-- The function `setCommMask`, with `EV_RXCHAR = 0x0001`. -/
def setCommMask (h : Handle) (w : World) : Option Error × World :=
  syscallBool (NativeCall.SetCommMask h 0x0001) w

/-- The function `resetEvent`. -/
def resetEvent (h : Handle) (w : World) : Option Error × World :=
  syscallBool (NativeCall.ResetEvent h) w

/-- The function `purgeComm`, with the four `PURGE_` flags or-ed together. -/
def purgeComm (h : Handle) (w : World) : Option Error × World :=
  syscallBool (NativeCall.PurgeComm h (0x0001 ||| 0x0002 ||| 0x0004 ||| 0x0008)) w

/-- The function `newOverlapped`: a manual-reset, initially non-signalled event object. -/
def newOverlapped (w : World) : Except Error Overlapped × World :=
  match w.call (NativeCall.CreateEvent 1 0) with
  | (Reply.fail e _, w1) => (Except.error (Error.errno e), w1)
  | (Reply.ok _, w1) =>
    let r := w1.alloc
    (Except.ok { HEvent := r.1 }, r.2)

/-- The function `getOverlappedResult`: `GetOverlappedResult` with `bWait = 1`. -/
def getOverlappedResult (h : Handle) (overlapped : Overlapped) (w : World) :
    (Nat × Option Error) × World :=
  match w.call (NativeCall.GetOverlappedResult h overlapped.HEvent 1) with
  | (Reply.fail e n, w1) => ((n, some (Error.errno e)), w1)
  | (Reply.ok n, w1) => ((n, none), w1)

/-! ## `serial_windows.go`: the port -/

/-- The deferred function of `open`, run on a return with `err != nil`: `f.Close()`, whose
own result is dropped. -/
def openFailed (f : File) (err : Error) (w : World) : Except Error port × World :=
  (Except.error err, (File.Close (some f) w).2.2)

/-- The function `open`.  The result `none` stands for a run-time panic. -/
def openPort (address : String) (baudRate dataBits stopBits parity : Nat) (timeout : Int)
    (w : World) : Option (Except Error port × World) :=
  match qualifyAddress address with
  | none => none
  | some address =>
    some <|
    match UTF16PtrFromString address with
    | Except.error err => (Except.error err, w)
    | Except.ok name =>
      match w.call (NativeCall.CreateFile name (0x80000000 ||| 0x40000000) 0 3
          (0x80 ||| 0x40000000)) with
      | (Reply.fail e _, w1) => (Except.error (errnoErr e), w1)
      | (Reply.ok _, w1) =>
        let h := w1.alloc.1
        let f : File := { fd := h, name := address }
        match setCommState h baudRate dataBits parity stopBits w1.alloc.2 with
        | (some err, w2) => openFailed f err w2
        | (none, w2) =>
          match setupComm h 64 64 w2 with
          | (some err, w3) => openFailed f err w3
          | (none, w3) =>
            match setCommTimeouts h timeout w3 with
            | (some err, w4) => openFailed f err w4
            | (none, w4) =>
              match setCommMask h w4 with
              | (some err, w5) => openFailed f err w5
              | (none, w5) =>
                match newOverlapped w5 with
                | (Except.error err, w6) => openFailed f err w6
                | (Except.ok ro, w6) =>
                  match newOverlapped w6 with
                  | (Except.error err, w7) => openFailed f err w7
                  | (Except.ok wo, w7) =>
                    (Except.ok { f := some f, fd := h, ro := ro, wo := wo }, w7)

/-- The method `port.close`. -/
def port.close (p : port) (w : World) : Option Error × port × World :=
  let r := File.Close p.f w
  (r.1, { p with f := r.2.1 }, r.2.2)

/-- The method `port.write`. -/
def port.write (p : port) (buf : List Nat) (w : World) : (Nat × Option Error) × World :=
  match resetEvent p.wo.HEvent w with
  | (some err, w1) => ((0, some err), w1)
  | (none, w1) =>
    match w1.call (NativeCall.WriteFile p.fd buf p.wo.HEvent) with
    | (Reply.fail e n, w2) =>
      if errnoErr e ≠ Error.errno ERROR_IO_PENDING then ((n, some (errnoErr e)), w2)
      else getOverlappedResult p.fd p.wo w2
    | (Reply.ok _, w2) => getOverlappedResult p.fd p.wo w2

/-- The method `port.read`; the length of `buf` is what the native call is given.  Of the
guard `p == nil || p.f == nil` the first test is decided by the caller: `serial.Read` calls
the method on a non-nil port only. -/
def port.read (p : port) (buf : List Nat) (w : World) : (Nat × Option Error) × World :=
  if p.f = none then ((0, some (Error.New "invalid port on read")), w)
  else
    match resetEvent p.ro.HEvent w with
    | (some err, w1) => ((0, some err), w1)
    | (none, w1) =>
      match w1.call (NativeCall.ReadFile p.fd buf.length p.ro.HEvent) with
      | (Reply.fail e done, w2) =>
        if errnoErr e ≠ Error.errno ERROR_IO_PENDING then ((done, some (errnoErr e)), w2)
        else getOverlappedResult p.fd p.ro w2
      | (Reply.ok _, w2) => getOverlappedResult p.fd p.ro w2

/-- The method `port.flush`. -/
def port.flush (p : port) (w : World) : Option Error × World :=
  purgeComm p.fd w

/-! ## `serial.go` and `validator.go` -/

/-- The record `serial`; `port = none` is the nil pointer. -/
structure serial where
  Address : String
  BaudRate : Nat
  DataBits : Nat
  StopBits : Nat
  Parity : Nat
  Timeout : Int
  port : Option port := none
  deriving DecidableEq, Repr

/-- The tags of a `validate:"..."` field annotation that the record `serial` uses. -/
inductive Tag where
  | required
  | oneof (vals : List Nat)
  deriving DecidableEq, Repr

/-- The check of one numeric field against its tags, in the order they are written:
`required` rejects the zero value, `oneof` a value that is none of the listed ones.  The
first tag that fails gives the field error. -/
def checkTags (field : String) (v : Nat) : List Tag → Option Error
  | [] => none
  | Tag.required :: ts =>
    if v = 0 then some (Error.validation field "required") else checkTags field v ts
  | Tag.oneof vals :: ts =>
    if v ∈ vals then checkTags field v ts else some (Error.validation field "oneof")

/-- The first error of a list of field checks, in the order of the fields. -/
def firstError : List (Option Error) → Option Error
  | [] => none
  | some e :: _ => some e
  | none :: es => firstError es

/-- The call `validate.Struct(object)` on a `serial`, read off the annotations of the
record: `Address` is `required` (not the empty string), then the four numeric fields;
`Timeout` and `port` carry `validate:"-"` and are skipped. -/
def validateStruct (s : serial) : Option Error :=
  firstError
    [ if s.Address = "" then some (Error.validation "Address" "required") else none,
      checkTags "BaudRate" s.BaudRate [Tag.required],
      checkTags "DataBits" s.DataBits [Tag.required, Tag.oneof [5, 6, 7, 8]],
      checkTags "StopBits" s.StopBits [Tag.required, Tag.oneof [1, 2]],
      checkTags "Parity" s.Parity [Tag.required, Tag.oneof [78, 79, 69, 77, 83]] ]

/-- The function `Validate`, on a possibly nil `*serial`.  A nil object gives the text of
`fmt.Errorf("validation object = %v are not allowed to be nil", object)`, where `%v` prints
a nil pointer as `<nil>`.  The language and the translation flag only choose the text of a
field error, which the embedding does not keep. -/
def Validate (object : Option serial) (language : String) (translation : Bool) :
    Option Error :=
  match object, language, translation with
  | none, _, _ => some (Error.New "validation object = <nil> are not allowed to be nil")
  | some s, _, _ => validateStruct s

/-- The function `New`. -/
def New (address : String) (baudRate dataBits stopBits parity : Nat) (timeout : Int) :
    Except Error serial :=
  let serial : serial :=
    { Address := address, BaudRate := baudRate, DataBits := dataBits, StopBits := stopBits,
      Parity := parity, Timeout := timeout }
  let serial := if serial.BaudRate = 0 then { serial with BaudRate := DEFAULT_BAUD_RATE } else serial
  let serial := if serial.Parity = 0 then { serial with Parity := DEFAULT_PARITY } else serial
  let serial := if serial.DataBits = 0 then { serial with DataBits := DEFAULT_DATA_BITS } else serial
  let serial := if serial.StopBits = 0 then { serial with StopBits := DEFAULT_STOP_BITS } else serial
  match Validate (some serial) "en" true with
  | some err => Except.error err
  | none => Except.ok serial

/-- The method `serial.Open`: `s.port, err = open(...)`.  The result `none` stands for a
run-time panic. -/
def serial.Open (s : serial) (w : World) : Option (Option Error × serial × World) :=
  match openPort s.Address s.BaudRate s.DataBits s.StopBits s.Parity s.Timeout w with
  | none => none
  | some (Except.error err, w1) => some (some err, { s with port := none }, w1)
  | some (Except.ok p, w1) => some (none, { s with port := some p }, w1)

/-- The method `serial.Close`. -/
def serial.Close (s : serial) (w : World) : Option Error × serial × World :=
  match s.port with
  | some p =>
    let r := p.close w
    (r.1, { s with port := some r.2.1 }, r.2.2)
  | none => (none, s, w)

/-- The method `serial.Flush`. -/
def serial.Flush (s : serial) (w : World) : Option Error × World :=
  match s.port with
  | some p => p.flush w
  | none => (none, w)

/-- The method `serial.Write`. -/
def serial.Write (s : serial) (buf : List Nat) (w : World) : (Nat × Option Error) × World :=
  match s.port with
  | some p => p.write buf w
  | none => ((0, some (Error.New "serial port is not allowed empty")), w)

/-- The method `serial.Read`. -/
def serial.Read (s : serial) (buf : List Nat) (w : World) : (Nat × Option Error) × World :=
  match s.port with
  | some p => p.read buf w
  | none => ((0, some (Error.New "serial port is not allowed empty")), w)

/-- A successful `Open` immediately followed by `Close`; `none` when `Open` fails or
panics. -/
def openClose (s : serial) (w : World) : Option (serial × World) :=
  match s.Open w with
  | some (none, s1, w1) => some ((s1.Close w1).2.1, (s1.Close w1).2.2)
  | _ => none

/-- The test sequence "open, then close at once", repeated `n` times on one `serial`. -/
def openCloseCycles : Nat → serial → World → Option (serial × World)
  | 0, s, w => some (s, w)
  | n + 1, s, w =>
    match openClose s w with
    | some (s1, w1) => openCloseCycles n s1 w1
    | none => none

/-! ## Example values -/

/-- The configuration of the repository test: `COM3`, 9600 baud, 8 data bits, one stop bit,
no parity, a timeout of one second; never opened. -/
def exampleSerial : serial :=
  { Address := "COM3", BaudRate := 9600, DataBits := 8, StopBits := STOP_ONE,
    Parity := PARITY_NONE, Timeout := 1000000000 }

/-- The port that `open` returns for `exampleSerial` in a fresh world: device handle 1,
read event 2, write event 3. -/
def examplePort : port :=
  { f := some { fd := 1, name := "\\\\.\\COM3" }, fd := 1, ro := { HEvent := 2 },
    wo := { HEvent := 3 } }

/-- The world after a successful `open` of `exampleSerial` in a fresh world, with the
given script for the calls to come. -/
def exampleOpenWorld (script : List Reply) : World :=
  { ((exampleSerial.Open {}).map fun r => r.2.2).getD {} with script := script }

/-! ## Lemmas on native calls -/

theorem syscallBool_snd (c : NativeCall) (w : World) :
    (syscallBool c w).2 = (w.call c).2 := by
  unfold syscallBool
  split <;> simp_all

/-! ## C1: the native read timeouts -/

/-- C1: for every requested read timeout `T >= 0` the local `timeoutMs` ends as
`c = MAXDWORD - 1` when `T = 0` and as the whole milliseconds of `T` (nanoseconds divided
by `10^6`, rounded down) clamped to `[1, MAXDWORD - 1]` when `T > 0`; `c` lies in
`[1, 2^32 - 2]`, so its conversion to `uint32` loses nothing; and the record handed to
`SetCommTimeouts` is `(MAXDWORD, MAXDWORD, c)` with `MAXDWORD = 2^32 - 1` and both write
fields zero. -/
theorem setCommTimeouts_triple (h : Handle) (T : Int) (w : World) (hT : 0 ≤ T) :
    timeoutMs T = (if T = 0 then 2 ^ 32 - 2 else max 1 (min (T / 1000000) (2 ^ 32 - 2))) ∧
    1 ≤ timeoutMs T ∧ timeoutMs T ≤ 2 ^ 32 - 2 ∧
    ((toUint32 (timeoutMs T) : Nat) : Int) = timeoutMs T ∧
    (setCommTimeouts h T w).2.trace = w.trace ++ [NativeCall.SetCommTimeouts h
      { ReadIntervalTimeout := 2 ^ 32 - 1, ReadTotalTimeoutMultiplier := 2 ^ 32 - 1,
        ReadTotalTimeoutConstant := (timeoutMs T).toNat,
        WriteTotalTimeoutMultiplier := 0, WriteTotalTimeoutConstant := 0 }] := by
  have hdiv : T.tdiv 1000000 = T / 1000000 := Int.tdiv_eq_ediv hT (by norm_num)
  have hval : timeoutMs T =
      (if T = 0 then 2 ^ 32 - 2 else max 1 (min (T / 1000000) (2 ^ 32 - 2))) := by
    unfold timeoutMs MAXDWORD
    simp only [hdiv]
    split_ifs <;> omega
  have hlo : 1 ≤ timeoutMs T := by
    rw [hval]; split_ifs <;> omega
  have hhi : timeoutMs T ≤ 2 ^ 32 - 2 := by
    rw [hval]; split_ifs <;> omega
  have hc : toUint32 (timeoutMs T) = (timeoutMs T).toNat := by
    unfold toUint32; omega
  have hconv : ((toUint32 (timeoutMs T) : Nat) : Int) = timeoutMs T := by
    rw [hc]; omega
  refine ⟨hval, hlo, hhi, hconv, ?_⟩
  have hM : toUint32 MAXDWORD = 2 ^ 32 - 1 := by
    unfold toUint32 MAXDWORD; norm_num; rfl
  unfold setCommTimeouts
  rw [syscallBool_snd, hM, hc]
  rfl

/-- C1 at a timeout of one and a half seconds on handle 1: the constant is 1500 ms. -/
theorem setCommTimeouts_triple_witness :
    (0 : Int) ≤ 1500000000 ∧
    (timeoutMs 1500000000 =
        (if (1500000000 : Int) = 0 then 2 ^ 32 - 2
          else max 1 (min (1500000000 / 1000000) (2 ^ 32 - 2))) ∧
      1 ≤ timeoutMs 1500000000 ∧ timeoutMs 1500000000 ≤ 2 ^ 32 - 2 ∧
      ((toUint32 (timeoutMs 1500000000) : Nat) : Int) = timeoutMs 1500000000 ∧
      (setCommTimeouts 1 1500000000 {}).2.trace = ({} : World).trace ++
        [NativeCall.SetCommTimeouts 1
          { ReadIntervalTimeout := 2 ^ 32 - 1, ReadTotalTimeoutMultiplier := 2 ^ 32 - 1,
            ReadTotalTimeoutConstant := (timeoutMs 1500000000).toNat,
            WriteTotalTimeoutMultiplier := 0, WriteTotalTimeoutConstant := 0 }]) :=
  ⟨by decide, setCommTimeouts_triple 1 1500000000 {} (by decide)⟩

/-! ## C2 and C3: `New`, its defaults and the validation gate -/

theorem checkTags_pass (field : String) (v : Nat) (vals : List Nat) (h0 : v ≠ 0)
    (hmem : v ∈ vals) : checkTags field v [Tag.required, Tag.oneof vals] = none := by
  simp [checkTags, h0, hmem]

theorem New_eq (address : String) (baudRate dataBits stopBits parity : Nat) (timeout : Int) :
    New address baudRate dataBits stopBits parity timeout =
      match validateStruct
        { Address := address
          BaudRate := if baudRate = 0 then DEFAULT_BAUD_RATE else baudRate
          DataBits := if dataBits = 0 then DEFAULT_DATA_BITS else dataBits
          StopBits := if stopBits = 0 then DEFAULT_STOP_BITS else stopBits
          Parity := if parity = 0 then DEFAULT_PARITY else parity
          Timeout := timeout
          port := none } with
      | some err => Except.error err
      | none => Except.ok
        { Address := address
          BaudRate := if baudRate = 0 then DEFAULT_BAUD_RATE else baudRate
          DataBits := if dataBits = 0 then DEFAULT_DATA_BITS else dataBits
          StopBits := if stopBits = 0 then DEFAULT_STOP_BITS else stopBits
          Parity := if parity = 0 then DEFAULT_PARITY else parity
          Timeout := timeout
          port := none } := by
  by_cases hb : baudRate = 0 <;> by_cases hd : dataBits = 0 <;>
    by_cases hs : stopBits = 0 <;> by_cases hp : parity = 0 <;>
    simp only [New, Validate, hb, hd, hs, hp, if_true, if_false]

theorem validateStruct_pass (s : serial) (haddr : s.Address ≠ "") (hbaud : s.BaudRate ≠ 0)
    (hdata : s.DataBits ∈ [5, 6, 7, 8]) (hstop : s.StopBits ∈ [1, 2])
    (hpar : s.Parity ∈ [78, 79, 69, 77, 83]) : validateStruct s = none := by
  have hd0 : s.DataBits ≠ 0 := by rintro h; rw [h] at hdata; simp at hdata
  have hs0 : s.StopBits ≠ 0 := by rintro h; rw [h] at hstop; simp at hstop
  have hp0 : s.Parity ≠ 0 := by rintro h; rw [h] at hpar; simp at hpar
  unfold validateStruct
  rw [checkTags_pass _ _ _ hd0 hdata, checkTags_pass _ _ _ hs0 hstop,
    checkTags_pass _ _ _ hp0 hpar]
  simp [firstError, checkTags, haddr, hbaud]

/-- C2, refuted as stated: in `New("COM3", 0, 0, STOP_ONE_HALF, 0, 1s)` the baud rate, the
data bits and the parity are zero, the address is not empty, and the one non-zero field is
the documented stop-bit value one-and-a-half (15, one of the three values 1, 15, 2); yet
`New` does not succeed: it returns the `oneof` error of the field `StopBits`. -/
theorem New_zero_fields_one_half_rejected :
    ("COM3" ≠ "" ∧ STOP_ONE_HALF ≠ 0 ∧
      STOP_ONE_HALF ∈ [STOP_ONE, STOP_ONE_HALF, STOP_TWO] ∧ STOP_ONE_HALF = 15) ∧
    New "COM3" 0 0 STOP_ONE_HALF 0 1000000000 =
      Except.error (Error.validation "StopBits" "oneof") :=
  ⟨⟨by decide, by decide, by decide, rfl⟩, rfl⟩

/-- C2, amended: when the address is not empty and each of data bits, stop bits and parity
is either zero or a value the validation gate lists (data bits 5 to 8, stop bits `STOP_ONE`
or `STOP_TWO`, parity one of N, O, E, M, S), `New` succeeds for every baud rate, and the
configuration returned has each zero field replaced by its default (9600 baud, 8 data bits,
1 stop bit, parity `N` = 78) and every other field, the address and the timeout as given. -/
theorem New_defaults (address : String) (baudRate dataBits stopBits parity : Nat)
    (timeout : Int) (haddr : address ≠ "")
    (hdata : dataBits = 0 ∨ dataBits = 5 ∨ dataBits = 6 ∨ dataBits = 7 ∨ dataBits = 8)
    (hstop : stopBits = 0 ∨ stopBits = STOP_ONE ∨ stopBits = STOP_TWO)
    (hpar : parity = 0 ∨ parity = PARITY_NONE ∨ parity = PARITY_ODD ∨ parity = PARITY_EVEN ∨
      parity = PARITY_MARK ∨ parity = PARITY_SPACE) :
    New address baudRate dataBits stopBits parity timeout = Except.ok
      { Address := address
        BaudRate := if baudRate = 0 then 9600 else baudRate
        DataBits := if dataBits = 0 then 8 else dataBits
        StopBits := if stopBits = 0 then 1 else stopBits
        Parity := if parity = 0 then 78 else parity
        Timeout := timeout
        port := none } := by
  rw [New_eq, validateStruct_pass]
  · rfl
  · exact haddr
  · show (if baudRate = 0 then DEFAULT_BAUD_RATE else baudRate) ≠ 0
    split_ifs with h
    · decide
    · exact h
  · show (if dataBits = 0 then DEFAULT_DATA_BITS else dataBits) ∈ [5, 6, 7, 8]
    rcases hdata with h | h | h | h | h <;> subst h <;> decide
  · show (if stopBits = 0 then DEFAULT_STOP_BITS else stopBits) ∈ [1, 2]
    rcases hstop with h | h | h <;> subst h <;> decide
  · show (if parity = 0 then DEFAULT_PARITY else parity) ∈ [78, 79, 69, 77, 83]
    rcases hpar with h | h | h | h | h | h <;> subst h <;> decide

/-- C2, amended, at `New("COM3", 0, 0, 2, 0, 1s)`: baud rate, data bits and parity are defaulted, the
two stop bits are kept. -/
theorem New_defaults_witness :
    ("COM3" ≠ "" ∧
      ((0 : Nat) = 0 ∨ (0 : Nat) = 5 ∨ (0 : Nat) = 6 ∨ (0 : Nat) = 7 ∨ (0 : Nat) = 8) ∧
      ((2 : Nat) = 0 ∨ 2 = STOP_ONE ∨ 2 = STOP_TWO) ∧
      ((0 : Nat) = 0 ∨ 0 = PARITY_NONE ∨ 0 = PARITY_ODD ∨ 0 = PARITY_EVEN ∨
        0 = PARITY_MARK ∨ 0 = PARITY_SPACE)) ∧
    New "COM3" 0 0 2 0 1000000000 = Except.ok
      { Address := "COM3"
        BaudRate := if (0 : Nat) = 0 then 9600 else 0
        DataBits := if (0 : Nat) = 0 then 8 else 0
        StopBits := if (2 : Nat) = 0 then 1 else 2
        Parity := if (0 : Nat) = 0 then 78 else 0
        Timeout := 1000000000
        port := none } :=
  ⟨⟨by decide, by decide, by decide, by decide⟩,
    New_defaults "COM3" 0 0 2 0 1000000000 (by decide) (by decide) (by decide) (by decide)⟩

/-- C3, refuted as stated: the configuration `("COM3", 9600, 8, STOP_ONE_HALF, 'N')` meets
every condition of the claim (address not empty, positive baud rate, 8 data bits, parity
`N`, one-and-a-half stop bits = 15), and `New` rejects it with the `oneof` error of the
field `StopBits`. -/
theorem New_rejects_one_half :
    ("COM3" ≠ "" ∧ 0 < 9600 ∧ (8 : Nat) ∈ [5, 6, 7, 8] ∧ STOP_ONE_HALF = 15 ∧
      PARITY_NONE ∈ [PARITY_NONE, PARITY_ODD, PARITY_EVEN, PARITY_MARK, PARITY_SPACE]) ∧
    New "COM3" 9600 8 STOP_ONE_HALF PARITY_NONE 0 =
      Except.error (Error.validation "StopBits" "oneof") :=
  ⟨⟨by decide, by decide, by decide, rfl, by decide⟩, rfl⟩

/-- C3, amended: for every configuration with a non-empty address, a positive baud rate,
data bits in {5,6,7,8}, parity in {N,O,E,M,S} and stop bits one (`STOP_ONE`) or two
(`STOP_TWO`), `New` returns the configuration as given, with no error. -/
theorem New_accepts (address : String) (baudRate dataBits stopBits parity : Nat)
    (timeout : Int) (haddr : address ≠ "") (hbaud : 0 < baudRate)
    (hdata : dataBits = 5 ∨ dataBits = 6 ∨ dataBits = 7 ∨ dataBits = 8)
    (hstop : stopBits = STOP_ONE ∨ stopBits = STOP_TWO)
    (hpar : parity = PARITY_NONE ∨ parity = PARITY_ODD ∨ parity = PARITY_EVEN ∨
      parity = PARITY_MARK ∨ parity = PARITY_SPACE) :
    New address baudRate dataBits stopBits parity timeout = Except.ok
      { Address := address, BaudRate := baudRate, DataBits := dataBits,
        StopBits := stopBits, Parity := parity, Timeout := timeout, port := none } := by
  have hb : baudRate ≠ 0 := by omega
  have hd : dataBits ≠ 0 := by rcases hdata with h | h | h | h <;> omega
  have hs : stopBits ≠ 0 := by rcases hstop with h | h <;> subst h <;> decide
  have hp : parity ≠ 0 := by rcases hpar with h | h | h | h | h <;> subst h <;> decide
  rw [New_eq, validateStruct_pass]
  · simp only [hb, hd, hs, hp, if_false]
  · exact haddr
  · simpa only [hb, if_false] using hb
  · simp only [hd, if_false]
    rcases hdata with h | h | h | h <;> subst h <;> decide
  · simp only [hs, if_false]
    rcases hstop with h | h <;> subst h <;> decide
  · simp only [hp, if_false]
    rcases hpar with h | h | h | h | h <;> subst h <;> decide

/-- C3, amended, at `("COM3", 115200, 7, STOP_TWO, 'E')`. -/
theorem New_accepts_witness :
    ("COM3" ≠ "" ∧ 0 < 115200 ∧
      ((7 : Nat) = 5 ∨ (7 : Nat) = 6 ∨ (7 : Nat) = 7 ∨ (7 : Nat) = 8) ∧
      (STOP_TWO = STOP_ONE ∨ STOP_TWO = STOP_TWO) ∧
      (PARITY_EVEN = PARITY_NONE ∨ PARITY_EVEN = PARITY_ODD ∨ PARITY_EVEN = PARITY_EVEN ∨
        PARITY_EVEN = PARITY_MARK ∨ PARITY_EVEN = PARITY_SPACE)) ∧
    New "COM3" 115200 7 STOP_TWO PARITY_EVEN 0 = Except.ok
      { Address := "COM3", BaudRate := 115200, DataBits := 7, StopBits := STOP_TWO,
        Parity := PARITY_EVEN, Timeout := 0, port := none } :=
  ⟨⟨by decide, by decide, by decide, by decide, by decide⟩,
    New_accepts "COM3" 115200 7 STOP_TWO PARITY_EVEN 0 (by decide) (by decide) (by decide)
      (by decide) (by decide)⟩

/-! ## C9: the qualification of the address -/

theorem trimSpace_nil_iff (l : List Char) :
    (l.dropWhile isSpace).rdropWhile isSpace = [] ↔ ∀ c ∈ l, isSpace c = true := by
  rw [List.rdropWhile_eq_nil_iff]
  constructor
  · intro h
    have hnil : l.dropWhile isSpace = [] := by
      by_contra hne
      have h1 := List.head_dropWhile_not isSpace l hne
      have h2 := h _ (List.head_mem hne)
      rw [h2] at h1
      exact absurd h1 (by decide)
    exact List.dropWhile_eq_nil_iff.mp hnil
  · intro h
    rw [List.dropWhile_eq_nil_iff.mpr h]
    intro x hx
    cases hx

theorem TrimSpace_length_pos_iff (s : String) :
    (TrimSpace s).length > 0 ↔ ∃ c ∈ s.data, isSpace c = false := by
  have h := trimSpace_nil_iff s.data
  unfold TrimSpace
  rw [String.length, gt_iff_lt, List.length_pos]
  rw [ne_eq, h]
  push_neg
  simp

theorem qualifyAddress_blank (address : String) (h : ∀ c ∈ address.data, isSpace c = true) :
    qualifyAddress address = some address := by
  have : ¬ (TrimSpace address).length > 0 := by
    rw [TrimSpace_length_pos_iff]
    push_neg
    intro c hc
    simp [h c hc]
  simp [qualifyAddress, this]

theorem qualifyAddress_backslash (address : String) (h : address.data.head? = some '\\') :
    qualifyAddress address = some address := by
  unfold qualifyAddress
  split_ifs with h1
  · cases hd : address.data with
    | nil => rw [hd] at h; simp at h
    | cons c rest =>
      rw [hd] at h
      simp at h
      simp [h]
  · rfl

theorem qualifyAddress_bare (address : String) (h1 : ∃ c ∈ address.data, isSpace c = false)
    (h2 : address.data.head? ≠ some '\\') :
    qualifyAddress address = some ("\\\\.\\" ++ address) := by
  have hpos := (TrimSpace_length_pos_iff address).mpr h1
  unfold qualifyAddress
  rw [if_pos hpos]
  cases hd : address.data with
  | nil => obtain ⟨c, hc, _⟩ := h1; rw [hd] at hc; cases hc
  | cons c rest =>
    rw [hd] at h2
    simp at h2
    simp [h2]

theorem qualifyAddress_idem (address : String) :
    ∃ q, qualifyAddress address = some q ∧ qualifyAddress q = some q := by
  by_cases h1 : ∃ c ∈ address.data, isSpace c = false
  · by_cases h2 : address.data.head? = some '\\'
    · exact ⟨address, qualifyAddress_backslash _ h2, qualifyAddress_backslash _ h2⟩
    · refine ⟨_, qualifyAddress_bare _ h1 h2, qualifyAddress_backslash _ ?_⟩
      rfl
  · push_neg at h1
    have h : ∀ c ∈ address.data, isSpace c = true := by
      intro c hc; simpa using h1 c hc
    exact ⟨address, qualifyAddress_blank _ h, qualifyAddress_blank _ h⟩

/-- C9: the qualification at the start of `open` is total and idempotent.  For every
address it returns a value (the index `address[0]` is never out of range, so `open` never
panics), and qualifying that value gives it again.  An address that is empty or made of
white space only is unchanged; an address that starts with a backslash is unchanged; any
other address (a bare device name: some character that is not white space, the first
character not a backslash) becomes the prefix `\\.\` followed by the address. -/
theorem qualifyAddress_total_idempotent (address : String) :
    (∃ q, qualifyAddress address = some q ∧ qualifyAddress q = some q) ∧
    ((∀ c ∈ address.data, isSpace c = true) → qualifyAddress address = some address) ∧
    (address.data.head? = some '\\' → qualifyAddress address = some address) ∧
    ((∃ c ∈ address.data, isSpace c = false) → address.data.head? ≠ some '\\' →
      qualifyAddress address = some ("\\\\.\\" ++ address)) ∧
    (∀ (baudRate dataBits stopBits parity : Nat) (timeout : Int) (w : World),
      openPort address baudRate dataBits stopBits parity timeout w ≠ none) :=
  ⟨qualifyAddress_idem address, qualifyAddress_blank address,
    qualifyAddress_backslash address, qualifyAddress_bare address, by
      intro b d s p t w
      obtain ⟨q, hq, _⟩ := qualifyAddress_idem address
      simp [openPort, hq]⟩

/-- C9 at the addresses `COM3`, `\\.\COM3`, the empty string and two blanks. -/
theorem qualifyAddress_total_idempotent_witness :
    qualifyAddress "COM3" = some "\\\\.\\COM3" ∧
    qualifyAddress "\\\\.\\COM3" = some "\\\\.\\COM3" ∧
    qualifyAddress "" = some "" ∧ qualifyAddress "  " = some "  " :=
  ⟨(qualifyAddress_total_idempotent "COM3").2.2.2.1 ⟨'C', by decide, by decide⟩ (by decide),
    (qualifyAddress_total_idempotent "\\\\.\\COM3").2.2.1 (by decide),
    (qualifyAddress_total_idempotent "").2.1 (by decide),
    (qualifyAddress_total_idempotent "  ").2.1 (by decide)⟩

/-! ## C8: parity and stop bits outside the enumerations -/

theorem setCommState_bad (h : Handle) (baud databits parity stopbits : Nat) (w : World)
    (hbad : parityCode parity = none ∨ stopBitsCode stopbits = none) :
    setCommState h baud databits parity stopbits w =
      (some (if parityCode parity = none then Error.ErrBadParity else Error.ErrBadStopBits),
        w) := by
  unfold setCommState
  cases hp : parityCode parity with
  | none => simp
  | some pc =>
    rw [hp] at hbad
    simp at hbad
    simp [hbad]

theorem parityCode_none_iff (parity : Nat) :
    parityCode parity = none ↔
      parity ∉ [PARITY_NONE, PARITY_ODD, PARITY_EVEN, PARITY_MARK, PARITY_SPACE] := by
  unfold parityCode
  simp only [List.mem_cons, List.mem_singleton, List.not_mem_nil, or_false, not_or]
  split_ifs <;> simp_all

theorem stopBitsCode_none_iff (stopbits : Nat) :
    stopBitsCode stopbits = none ↔ stopbits ∉ [STOP_ONE, STOP_ONE_HALF, STOP_TWO] := by
  unfold stopBitsCode
  simp only [List.mem_cons, List.mem_singleton, List.not_mem_nil, or_false, not_or]
  split_ifs <;> simp_all

/-- C8, refuted as stated: with parity `'X'` = 88, outside the five codes, `open` on
`COM3` in a fresh world fails with `ErrBadParity` only after the native `CreateFile` has
been called and a device handle acquired (and then released by `CloseHandle`). -/
theorem openPort_bad_parity_after_CreateFile :
    (88 : Nat) ∉ [PARITY_NONE, PARITY_ODD, PARITY_EVEN, PARITY_MARK, PARITY_SPACE] ∧
    openPort "COM3" 9600 8 STOP_ONE 88 0 {} = some (Except.error Error.ErrBadParity,
      { script := []
        trace := [NativeCall.CreateFile "\\\\.\\COM3" 0xC0000000 0 3 0x40000080,
          NativeCall.CloseHandle 1]
        live := []
        next := 1
        acquired := 1
        released := 1 }) :=
  ⟨by decide, rfl⟩

/-- C8, amended: for every parity outside {N,O,E,M,S}, and for every stop-bit value
outside {1, 15, 2} with any parity, `setCommState` returns `ErrBadParity` (respectively
`ErrBadStopBits` when the parity is one of the five codes) before its own native call, the
world unchanged.  In `open`, when the qualified address has no NUL and `CreateFile`
succeeds, that error is returned after exactly two native calls, `CreateFile` and the
`CloseHandle` of the handle just acquired: `SetCommState` is never called, one kernel
object was acquired and one released, and no device handle remains allocated. -/
theorem openPort_bad_parity_or_stopBits (address q : String)
    (baudRate dataBits stopBits parity : Nat) (timeout : Int) (w : World) (n : Nat)
    (hq : qualifyAddress address = some q) (hnul : Char.ofNat 0 ∉ q.data)
    (hcreate : w.script.headD (Reply.ok 0) = Reply.ok n)
    (hbad : parity ∉ [PARITY_NONE, PARITY_ODD, PARITY_EVEN, PARITY_MARK, PARITY_SPACE] ∨
      stopBits ∉ [STOP_ONE, STOP_ONE_HALF, STOP_TWO]) :
    (∀ h w0, setCommState h baudRate dataBits parity stopBits w0 =
      (some (if parity ∉ [PARITY_NONE, PARITY_ODD, PARITY_EVEN, PARITY_MARK, PARITY_SPACE]
        then Error.ErrBadParity else Error.ErrBadStopBits), w0)) ∧
    ∃ w1, openPort address baudRate dataBits stopBits parity timeout w =
        some (Except.error
          (if parity ∉ [PARITY_NONE, PARITY_ODD, PARITY_EVEN, PARITY_MARK, PARITY_SPACE]
            then Error.ErrBadParity else Error.ErrBadStopBits), w1) ∧
      w1.trace = w.trace ++
        [NativeCall.CreateFile q (0x80000000 ||| 0x40000000) 0 3 (0x80 ||| 0x40000000),
          NativeCall.CloseHandle (w.next + 1)] ∧
      w1.acquired = w.acquired + 1 ∧ w1.released = w.released + 1 ∧
      w1.live.length = w.live.length ∧ (w.next + 1 ∉ w.live → w1.live = w.live) := by
  have hbad2 : parityCode parity = none ∨ stopBitsCode stopBits = none := by
    rw [parityCode_none_iff, stopBitsCode_none_iff]; exact hbad
  have hset : ∀ h w0, setCommState h baudRate dataBits parity stopBits w0 =
      (some (if parity ∉ [PARITY_NONE, PARITY_ODD, PARITY_EVEN, PARITY_MARK, PARITY_SPACE]
        then Error.ErrBadParity else Error.ErrBadStopBits), w0) := by
    intro h w0
    rw [setCommState_bad h baudRate dataBits parity stopBits w0 hbad2]
    simp only [parityCode_none_iff]
  refine ⟨hset, ?_⟩
  refine ⟨{ script := w.script.tail,
             trace := w.trace ++
               [NativeCall.CreateFile q (0x80000000 ||| 0x40000000) 0 3 (0x80 ||| 0x40000000),
                 NativeCall.CloseHandle (w.next + 1)],
             live := (w.live ++ [w.next + 1]).erase (w.next + 1),
             next := w.next + 1,
             acquired := w.acquired + 1,
             released := w.released + 1 }, ?_, rfl, rfl, rfl, ?_, ?_⟩
  · unfold openPort
    simp only [hq, UTF16PtrFromString, hnul, if_false]
    simp only [World.call, hcreate, hset, openFailed]
    simp [File.Close, World.closeHandle, World.alloc]
  · simp
  · intro h
    show (w.live ++ [w.next + 1]).erase (w.next + 1) = w.live
    rw [List.erase_append_right _ h]
    simp

/-- C8, amended, at `open("COM3", 9600, 8, 7, 'N', 0)` in a fresh world: seven stop bits
are outside the enumeration, and the error is `ErrBadStopBits`. -/
theorem openPort_bad_parity_or_stopBits_witness :
    (qualifyAddress "COM3" = some "\\\\.\\COM3" ∧
      Char.ofNat 0 ∉ ("\\\\.\\COM3" : String).data ∧
      ({} : World).script.headD (Reply.ok 0) = Reply.ok 0 ∧
      (PARITY_NONE ∉ [PARITY_NONE, PARITY_ODD, PARITY_EVEN, PARITY_MARK, PARITY_SPACE] ∨
        (7 : Nat) ∉ [STOP_ONE, STOP_ONE_HALF, STOP_TWO])) ∧
    ∃ w1, openPort "COM3" 9600 8 7 PARITY_NONE 0 {} =
        some (Except.error Error.ErrBadStopBits, w1) ∧
      w1.trace = [NativeCall.CreateFile "\\\\.\\COM3" 0xC0000000 0 3 0x40000080,
        NativeCall.CloseHandle 1] ∧
      w1.acquired = 1 ∧ w1.released = 1 ∧ w1.live = [] := by
  refine ⟨⟨rfl, by decide, rfl, by decide⟩, ?_⟩
  obtain ⟨w1, h1, h2, h3, h4, _, h6⟩ :=
    (openPort_bad_parity_or_stopBits "COM3" "\\\\.\\COM3" 9600 8 7 PARITY_NONE 0 {} 0 rfl
      (by decide) rfl (by decide)).2
  exact ⟨w1, h1, h2, h3, h4, h6 (by decide)⟩

/-! ## C4 and C5: calls on a port that is not open -/

/-- C4, refuted as stated.  On the never-opened `exampleSerial` (its `port` is nil) `Flush`
returns nil, not an error.  And on the port that was opened and then closed, `Read`, `Write`
and `Flush` all reach the native layer: `ResetEvent`, `ReadFile` or `WriteFile`,
`GetOverlappedResult`, and `PurgeComm` are called on the closed handle. -/
theorem notOpen_flush_nil_closed_calls_native :
    exampleSerial.port = none ∧ exampleSerial.Flush {} = (none, {}) ∧
    ∃ s w, openCloseCycles 1 exampleSerial {} = some (s, w) ∧
      s.port = some
        { examplePort with f := some { fd := 1, name := "\\\\.\\COM3", closed := true } } ∧
      (s.Read [0, 0] w).2.trace = w.trace ++ [NativeCall.ResetEvent 2,
        NativeCall.ReadFile 1 2 2, NativeCall.GetOverlappedResult 1 2 1] ∧
      (s.Write [7] w).2.trace = w.trace ++ [NativeCall.ResetEvent 3,
        NativeCall.WriteFile 1 [7] 3, NativeCall.GetOverlappedResult 1 3 1] ∧
      (s.Flush w).2.trace = w.trace ++ [NativeCall.PurgeComm 1 15] :=
  ⟨rfl, rfl, _, _, rfl, rfl, rfl, rfl, rfl⟩

/-- C4, amended: for every `serial` whose port is nil, which is the case of one that was
never opened (as `New` returns it) and of one whose `Open` failed, and for every buffer,
`Read` and `Write` return byte count 0 with the non-nil error "serial port is not allowed
empty" and perform no native call (the world is unchanged); `Flush` performs no native
call either. -/
theorem notOpen_read_write_flush (s : serial) (buf : List Nat) (w : World)
    (hstate : s.port = none ∨
      (∃ address baudRate dataBits stopBits parity timeout,
        New address baudRate dataBits stopBits parity timeout = Except.ok s) ∨
      (∃ s0 w0 err w1, serial.Open s0 w0 = some (some err, s, w1))) :
    s.Read buf w = ((0, some (Error.New "serial port is not allowed empty")), w) ∧
    s.Write buf w = ((0, some (Error.New "serial port is not allowed empty")), w) ∧
    (s.Flush w).2 = w := by
  have hport : s.port = none := by
    rcases hstate with h | ⟨a, b, d, sb, p, t, h⟩ | ⟨s0, w0, err, w1, h⟩
    · exact h
    · rw [New_eq] at h
      split at h
      · cases h
      · cases h; rfl
    · unfold serial.Open at h
      split at h
      · cases h
      · cases h; rfl
      · cases h
  simp [serial.Read, serial.Write, serial.Flush, hport]

/-- C4, amended, at the never-opened `exampleSerial` in a fresh world. -/
theorem notOpen_read_write_flush_witness :
    (exampleSerial.port = none ∨
      (∃ address baudRate dataBits stopBits parity timeout,
        New address baudRate dataBits stopBits parity timeout = Except.ok exampleSerial) ∨
      (∃ s0 w0 err w1, serial.Open s0 w0 = some (some err, exampleSerial, w1))) ∧
    (exampleSerial.Read [0, 0] {} =
        ((0, some (Error.New "serial port is not allowed empty")), {}) ∧
      exampleSerial.Write [0, 0] {} =
        ((0, some (Error.New "serial port is not allowed empty")), {}) ∧
      (exampleSerial.Flush {}).2 = {}) :=
  ⟨Or.inl rfl, notOpen_read_write_flush exampleSerial [0, 0] {} (Or.inl rfl)⟩

/-- C5, refuted as stated: after `exampleSerial` was opened and closed once, a second
`Close` returns the "file already closed" error of the device path. -/
theorem Close_twice_returns_error :
    ∃ s w, openCloseCycles 1 exampleSerial {} = some (s, w) ∧
      s.Close w = (some (Error.ErrClosed "\\\\.\\COM3"), s, w) :=
  ⟨_, _, rfl, rfl⟩

/-- C5, amended: `Close` on a never-opened port (nil `port`) returns nil and changes
nothing.  On a port that holds a file, a `Close` that follows a `Close` performs no native
call and releases nothing (port and world are unchanged), and returns the "file already
closed" error. -/
theorem Close_never_opened_and_twice (s : serial) (w : World) :
    (s.port = none → s.Close w = (none, s, w)) ∧
    (∀ p f, s.port = some p → p.f = some f →
      (s.Close w).2.1.Close (s.Close w).2.2 =
        (some (Error.ErrClosed f.name), (s.Close w).2.1, (s.Close w).2.2)) := by
  constructor
  · intro h
    simp [serial.Close, h]
  · intro p f hp hf
    by_cases hc : f.closed = true
    · simp [serial.Close, hp, port.close, hf, File.Close, hc]
    · simp [serial.Close, hp, port.close, hf, File.Close, hc]

/-- C5, amended, at `exampleSerial`: never opened, and opened in a fresh world. -/
theorem Close_never_opened_and_twice_witness :
    exampleSerial.Close {} = (none, exampleSerial, {}) ∧
    (serial.Close { exampleSerial with port := some examplePort } (exampleOpenWorld [])).2.1.Close
        (serial.Close { exampleSerial with port := some examplePort }
          (exampleOpenWorld [])).2.2 =
      (some (Error.ErrClosed "\\\\.\\COM3"),
        (serial.Close { exampleSerial with port := some examplePort }
          (exampleOpenWorld [])).2.1,
        (serial.Close { exampleSerial with port := some examplePort }
          (exampleOpenWorld [])).2.2) :=
  ⟨(Close_never_opened_and_twice exampleSerial {}).1 rfl,
    (Close_never_opened_and_twice { exampleSerial with port := some examplePort }
      (exampleOpenWorld [])).2 examplePort { fd := 1, name := "\\\\.\\COM3" } rfl rfl⟩

/-! ## C10: immediate completion -/

theorem getOverlappedResult_eq (h : Handle) (overlapped : Overlapped) (w : World) :
    getOverlappedResult h overlapped w =
      ((match w.script.headD (Reply.ok 0) with
        | Reply.ok m => (m, none)
        | Reply.fail e m => (m, some (Error.errno e))),
       { w with
         script := w.script.tail
         trace := w.trace ++ [NativeCall.GetOverlappedResult h overlapped.HEvent 1] }) := by
  unfold getOverlappedResult World.call
  cases w.script.headD (Reply.ok 0) <;> rfl

theorem errnoErr_ne_pending (e : Errno) (h : e ≠ ERROR_IO_PENDING) :
    errnoErr e ≠ Error.errno ERROR_IO_PENDING := by
  unfold errnoErr
  split_ifs with h0
  · decide
  · intro hc
    cases hc
    exact h rfl

/-- C10, refuted as stated.  `ReadFile` completes at once with 5 bytes, yet `read` goes on
to `GetOverlappedResult` with the wait flag set and returns the 3 bytes that call reports;
`WriteFile` completes at once with 8 bytes, yet `write` returns the count 0 and the error
of the `GetOverlappedResult` that follows. -/
theorem read_write_immediate_completion_waits :
    (examplePort.read [0, 0, 0, 0, 0, 0, 0, 0]
        (exampleOpenWorld [Reply.ok 0, Reply.ok 5, Reply.ok 3])).1 = (3, none) ∧
    (examplePort.read [0, 0, 0, 0, 0, 0, 0, 0]
        (exampleOpenWorld [Reply.ok 0, Reply.ok 5, Reply.ok 3])).2.trace =
      (exampleOpenWorld []).trace ++ [NativeCall.ResetEvent 2, NativeCall.ReadFile 1 8 2,
        NativeCall.GetOverlappedResult 1 2 1] ∧
    (examplePort.write [1, 3, 0, 1, 0, 1, 213, 202]
        (exampleOpenWorld [Reply.ok 0, Reply.ok 8, Reply.fail 995 0])).1 =
      (0, some (Error.errno 995)) :=
  ⟨rfl, rfl, rfl⟩

/-- C10, amended: for both directions and every buffer, once the completion event was
reset, a native `ReadFile`/`WriteFile` that reports immediate completion is treated like
one that reports "operation pending": the operation calls `GetOverlappedResult` with the
wait flag set and returns the byte count and the error status of that call.  The byte
count of `ReadFile`/`WriteFile` itself is returned only on a hard failure (an error other
than "operation pending"), together with that error and without a further call. -/

theorem read_write_completion (p : port) (buf : List Nat) (w : World) (a : Nat) (r : Reply)
    (rest : List Reply) (hf : p.f ≠ none) (hscript : w.script = Reply.ok a :: r :: rest) :
    ((∃ n, r = Reply.ok n ∨ r = Reply.fail ERROR_IO_PENDING n) →
      p.read buf w =
        ((match rest.headD (Reply.ok 0) with
          | Reply.ok m => (m, none)
          | Reply.fail e m => (m, some (Error.errno e))),
         { w with
           script := rest.tail
           trace := w.trace ++ [NativeCall.ResetEvent p.ro.HEvent,
             NativeCall.ReadFile p.fd buf.length p.ro.HEvent,
             NativeCall.GetOverlappedResult p.fd p.ro.HEvent 1] }) ∧
      p.write buf w =
        ((match rest.headD (Reply.ok 0) with
          | Reply.ok m => (m, none)
          | Reply.fail e m => (m, some (Error.errno e))),
         { w with
           script := rest.tail
           trace := w.trace ++ [NativeCall.ResetEvent p.wo.HEvent,
             NativeCall.WriteFile p.fd buf p.wo.HEvent,
             NativeCall.GetOverlappedResult p.fd p.wo.HEvent 1] })) ∧
    (∀ e n, r = Reply.fail e n → e ≠ ERROR_IO_PENDING →
      p.read buf w =
        ((n, some (errnoErr e)),
         { w with
           script := rest
           trace := w.trace ++ [NativeCall.ResetEvent p.ro.HEvent,
             NativeCall.ReadFile p.fd buf.length p.ro.HEvent] }) ∧
      p.write buf w =
        ((n, some (errnoErr e)),
         { w with
           script := rest
           trace := w.trace ++ [NativeCall.ResetEvent p.wo.HEvent,
             NativeCall.WriteFile p.fd buf p.wo.HEvent] })) := by
  constructor
  · rintro ⟨n, hr⟩
    have hr1 : p.read buf w = getOverlappedResult p.fd p.ro
        { w with script := rest, trace := w.trace ++ [NativeCall.ResetEvent p.ro.HEvent,
            NativeCall.ReadFile p.fd buf.length p.ro.HEvent] } := by
      rcases hr with h | h <;> subst h <;>
        simp [port.read, hf, resetEvent, syscallBool, World.call, hscript, errnoErr,
          ERROR_IO_PENDING]
    have hw1 : p.write buf w = getOverlappedResult p.fd p.wo
        { w with script := rest, trace := w.trace ++ [NativeCall.ResetEvent p.wo.HEvent,
            NativeCall.WriteFile p.fd buf p.wo.HEvent] } := by
      rcases hr with h | h <;> subst h <;>
        simp [port.write, resetEvent, syscallBool, World.call, hscript, errnoErr,
          ERROR_IO_PENDING]
    rw [hr1, hw1, getOverlappedResult_eq, getOverlappedResult_eq]
    simp
  · intro e n hr he
    subst hr
    have hne := errnoErr_ne_pending e he
    constructor
    · simp [port.read, hf, resetEvent, syscallBool, World.call, hscript, hne]
    · simp [port.write, resetEvent, syscallBool, World.call, hscript, hne]

/-- C10, amended, at a read of 8 bytes on `examplePort` that completes at once. -/

theorem read_write_completion_witness :
    (examplePort.f ≠ none ∧
      (exampleOpenWorld [Reply.ok 0, Reply.ok 5, Reply.ok 5]).script =
        Reply.ok 0 :: Reply.ok 5 :: [Reply.ok 5]) ∧
    (examplePort.read [0, 0, 0, 0, 0, 0, 0, 0]
        (exampleOpenWorld [Reply.ok 0, Reply.ok 5, Reply.ok 5])).1 = (5, none) := by
  refine ⟨⟨by decide, rfl⟩, ?_⟩
  have h := ((read_write_completion examplePort [0, 0, 0, 0, 0, 0, 0, 0]
    (exampleOpenWorld [Reply.ok 0, Reply.ok 5, Reply.ok 5]) 0 (Reply.ok 5) [Reply.ok 5]
    (by decide) rfl).1 ⟨5, Or.inl rfl⟩).1
  rw [h]
  rfl


/-! ## C6 and C7: kernel objects acquired and released -/

theorem openPort_success (address q : String) (baudRate dataBits stopBits parity : Nat)
    (timeout : Int) (w : World) (pc sc : Nat)
    (hq : qualifyAddress address = some q) (hnul : Char.ofNat 0 ∉ q.data)
    (hp : parityCode parity = some pc) (hs : stopBitsCode stopBits = some sc)
    (hscript : w.script = []) :
    openPort address baudRate dataBits stopBits parity timeout w =
      some (Except.ok
        { f := some { fd := w.next + 1, name := q }, fd := w.next + 1,
          ro := { HEvent := w.next + 2 }, wo := { HEvent := w.next + 3 } },
        { script := [],
          trace := w.trace ++
            [NativeCall.CreateFile q (0x80000000 ||| 0x40000000) 0 3 (0x80 ||| 0x40000000),
              NativeCall.SetCommState (w.next + 1)
                { DCBlength := 28, flags := [0x01 ||| 0x10, 0, 0, 0],
                  BaudRate := baudRate % 2 ^ 32, ByteSize := dataBits, Parity := pc,
                  StopBits := sc },
              NativeCall.SetupComm (w.next + 1) 64 64,
              NativeCall.SetCommTimeouts (w.next + 1)
                { ReadIntervalTimeout := toUint32 MAXDWORD,
                  ReadTotalTimeoutMultiplier := toUint32 MAXDWORD,
                  ReadTotalTimeoutConstant := toUint32 (timeoutMs timeout) },
              NativeCall.SetCommMask (w.next + 1) 0x0001,
              NativeCall.CreateEvent 1 0, NativeCall.CreateEvent 1 0],
          live := w.live ++ [w.next + 1, w.next + 2, w.next + 3],
          next := w.next + 3,
          acquired := w.acquired + 3,
          released := w.released }) := by
  simp [openPort, hq, UTF16PtrFromString, hnul, World.call, hscript,
      setCommState, hp, hs, syscallBool, setupComm, setCommTimeouts, setCommMask,
      newOverlapped, World.alloc]

theorem openClose_step (s : serial) (w : World) (q : String)
    (hq : qualifyAddress s.Address = some q) (hnul : Char.ofNat 0 ∉ q.data)
    (hp : parityCode s.Parity ≠ none) (hs : stopBitsCode s.StopBits ≠ none)
    (hscript : w.script = []) :
    ∃ s1 w1, openClose s w = some (s1, w1) ∧ s1.Address = s.Address ∧
      s1.Parity = s.Parity ∧ s1.StopBits = s.StopBits ∧ w1.script = [] ∧
      w1.acquired = w.acquired + 3 ∧ w1.released = w.released + 1 ∧
      w1.live = (w.live ++ [w.next + 1, w.next + 2, w.next + 3]).erase (w.next + 1) := by
  obtain ⟨pc, hpc⟩ := Option.ne_none_iff_exists'.mp hp
  obtain ⟨sc, hsc⟩ := Option.ne_none_iff_exists'.mp hs
  have hopen := openPort_success s.Address q s.BaudRate s.DataBits s.StopBits s.Parity
    s.Timeout w pc sc hq hnul hpc hsc hscript
  unfold openClose
  simp only [serial.Open, hopen]
  simp only [serial.Close, port.close, File.Close, World.closeHandle]
  simp only [Bool.false_eq_true, if_false, List.mem_append, List.mem_cons, true_or, or_true,
    if_true]
  exact ⟨_, _, rfl, rfl, rfl, rfl, rfl, rfl, rfl, rfl⟩

/-- C6, as the code behaves: with an operating system that lets every call succeed, `N`
repetitions of `Open` followed by `Close` all succeed, acquire `3 * N` kernel objects (one
device handle and two event objects per `Open`) and release only `N` (the device handles):
`2 * N` more objects are allocated at the end than at the start, the completion events,
which nothing ever closes. -/
theorem openCloseCycles_leaks_events (n : Nat) (s : serial) (w : World) (q : String)
    (hq : qualifyAddress s.Address = some q) (hnul : Char.ofNat 0 ∉ q.data)
    (hp : parityCode s.Parity ≠ none) (hs : stopBitsCode s.StopBits ≠ none)
    (hscript : w.script = []) :
    ∃ s1 w1, openCloseCycles n s w = some (s1, w1) ∧
      w1.acquired = w.acquired + 3 * n ∧ w1.released = w.released + n ∧
      w1.live.length = w.live.length + 2 * n := by
  induction n generalizing s w with
  | zero => exact ⟨s, w, rfl, rfl, rfl, rfl⟩
  | succ n ih =>
    obtain ⟨s1, w1, h1, ha, hpa, hst, hsc, hacq, hrel, hlive⟩ :=
      openClose_step s w q hq hnul hp hs hscript
    obtain ⟨s2, w2, h2, hacq2, hrel2, hlive2⟩ :=
      ih s1 w1 (by rw [ha]; exact hq) (by rw [hpa]; exact hp) (by rw [hst]; exact hs) hsc
    refine ⟨s2, w2, ?_, ?_, ?_, ?_⟩
    · simp only [openCloseCycles, h1, h2]
    · rw [hacq2, hacq]; omega
    · rw [hrel2, hrel]; omega
    · rw [hlive2, hlive, List.length_erase_of_mem (by simp)]
      simp
      omega

/-- C6 at two repetitions on `exampleSerial` in a fresh world: six objects acquired, two
released, the four event objects 2, 3, 5 and 6 still allocated. -/
theorem openCloseCycles_leaks_events_witness :
    (qualifyAddress exampleSerial.Address = some "\\\\.\\COM3" ∧
      Char.ofNat 0 ∉ ("\\\\.\\COM3" : String).data ∧
      parityCode exampleSerial.Parity ≠ none ∧ stopBitsCode exampleSerial.StopBits ≠ none ∧
      ({} : World).script = []) ∧
    ∃ s1 w1, openCloseCycles 2 exampleSerial {} = some (s1, w1) ∧
      w1.acquired = 6 ∧ w1.released = 2 ∧ w1.live = [2, 3, 5, 6] := by
  refine ⟨⟨rfl, by decide, by decide, by decide, rfl⟩, ?_⟩
  obtain ⟨s1, w1, h1, _, _, _⟩ := openCloseCycles_leaks_events 2 exampleSerial {}
    "\\\\.\\COM3" rfl (by decide) (by decide) (by decide) rfl
  refine ⟨s1, w1, h1, ?_⟩
  have h : openCloseCycles 2 exampleSerial {} = some (_, _) := rfl
  rw [h] at h1
  cases h1
  exact ⟨rfl, rfl, rfl⟩

theorem call_res (w : World) (c : NativeCall) : (w.call c).2.res = w.res := rfl

theorem syscallBool_res (c : NativeCall) (w : World) : (syscallBool c w).2.res = w.res := by
  rw [syscallBool_snd]; rfl

theorem setCommState_res (h : Handle) (baud databits parity stopbits : Nat) (w : World) :
    (setCommState h baud databits parity stopbits w).2.res = w.res := by
  unfold setCommState
  split
  · rfl
  · split
    · rfl
    · exact syscallBool_res _ _

theorem newOverlapped_res (w : World) :
    (∃ err w1, newOverlapped w = (Except.error err, w1) ∧ w1.res = w.res) ∨
    (∃ w1, newOverlapped w = (Except.ok { HEvent := w.next + 1 }, w1) ∧
      w1.res = (w.live ++ [w.next + 1], w.next + 1, w.acquired + 1, w.released)) := by
  unfold newOverlapped World.call
  cases w.script.headD (Reply.ok 0) with
  | ok n => right; exact ⟨_, rfl, rfl⟩
  | fail e n => left; exact ⟨_, _, rfl, rfl⟩

theorem openFailed_res (f : File) (err : Error) (w : World) (hf : f.closed = false)
    (hmem : f.fd ∈ w.live) :
    (openFailed f err w).1 = Except.error err ∧
    (openFailed f err w).2.res = (w.live.erase f.fd, w.next, w.acquired, w.released + 1) := by
  simp [openFailed, File.Close, hf, World.closeHandle, hmem, World.res]

theorem setupComm_res (h : Handle) (a b : Nat) (w : World) :
    (setupComm h a b w).2.res = w.res := syscallBool_res _ _

theorem setCommTimeouts_res (h : Handle) (t : Int) (w : World) :
    (setCommTimeouts h t w).2.res = w.res := syscallBool_res _ _

theorem setCommMask_res (h : Handle) (w : World) :
    (setCommMask h w).2.res = w.res := syscallBool_res _ _

theorem openFailed_of_res (fd : Handle) (name : String) (err0 err : Error) (wk w1 : World)
    (live : List Handle) (nx acq rel : Nat) (hres : wk.res = (live, nx, acq, rel))
    (hmem : fd ∈ live)
    (h : openFailed { fd := fd, name := name, closed := false } err0 wk =
      (Except.error err, w1)) :
    w1.res = (live.erase fd, nx, acq, rel + 1) := by
  simp only [World.res, Prod.mk.injEq] at hres
  obtain ⟨h1, h2, h3, h4⟩ := hres
  have h5 := (openFailed_res { fd := fd, name := name, closed := false } err0 wk rfl
    (by rw [h1]; exact hmem)).2
  rw [h] at h5
  rw [h5, h1, h2, h3, h4]

/-- Every failed `open` leaves the resources in one of three states: untouched (the failure
came before the device handle existed); the device handle acquired and released; or two
objects acquired and only the device handle released. -/
theorem openPort_failure_balance (address : String)
    (baudRate dataBits stopBits parity : Nat) (timeout : Int) (w w1 : World) (err : Error)
    (h : openPort address baudRate dataBits stopBits parity timeout w =
      some (Except.error err, w1)) :
    w1.res = w.res ∨
    w1.res = ((w.live ++ [w.next + 1]).erase (w.next + 1), w.next + 1, w.acquired + 1,
      w.released + 1) ∨
    w1.res = ((w.live ++ [w.next + 1, w.next + 2]).erase (w.next + 1), w.next + 2,
      w.acquired + 2, w.released + 1) := by
  unfold openPort at h
  split at h
  · cases h
  · simp only [Option.some.injEq] at h
    split at h
    · cases h; left; rfl
    · split at h
      · rename_i hc
        cases h
        left
        rw [← call_res w, hc]
      · rename_i name _ n wc hc
        have hwc : wc.res = w.res := by rw [← call_res w, hc]
        simp only [World.res, Prod.mk.injEq] at hwc
        obtain ⟨hl, hn, hacq, hrel⟩ := hwc
        have hfd : wc.alloc.1 = w.next + 1 := by simp [World.alloc, hn]
        have ha : wc.alloc.2.res =
            (w.live ++ [w.next + 1], w.next + 1, w.acquired + 1, w.released) := by
          simp [World.alloc, World.res, hl, hn, hacq, hrel]
        rw [hfd] at h
        generalize wc.alloc.2 = wa at h ha
        have hm1 : w.next + 1 ∈ w.live ++ [w.next + 1] := by simp
        split at h
        · rename_i heq
          have hr := setCommState_res (w.next + 1) baudRate dataBits parity stopBits wa
          rw [heq, ha] at hr
          right; left
          exact openFailed_of_res _ _ _ _ _ _ _ _ _ _ hr hm1 h
        · rename_i w2 heq2
          have hr2 := setCommState_res (w.next + 1) baudRate dataBits parity stopBits wa
          rw [heq2, ha] at hr2
          simp only at hr2
          split at h
          · rename_i heq
            have hr := setupComm_res (w.next + 1) 64 64 w2
            rw [heq, hr2] at hr
            right; left
            exact openFailed_of_res _ _ _ _ _ _ _ _ _ _ hr hm1 h
          · rename_i w3 heq3
            have hr3 := setupComm_res (w.next + 1) 64 64 w2
            rw [heq3, hr2] at hr3
            simp only at hr3
            split at h
            · rename_i heq
              have hr := setCommTimeouts_res (w.next + 1) timeout w3
              rw [heq, hr3] at hr
              right; left
              exact openFailed_of_res _ _ _ _ _ _ _ _ _ _ hr hm1 h
            · rename_i w4 heq4
              have hr4 := setCommTimeouts_res (w.next + 1) timeout w3
              rw [heq4, hr3] at hr4
              simp only at hr4
              split at h
              · rename_i heq
                have hr := setCommMask_res (w.next + 1) w4
                rw [heq, hr4] at hr
                right; left
                exact openFailed_of_res _ _ _ _ _ _ _ _ _ _ hr hm1 h
              · rename_i w5 heq5
                have hr5 := setCommMask_res (w.next + 1) w4
                rw [heq5, hr4] at hr5
                simp only at hr5
                have h5 : w5.live = w.live ++ [w.next + 1] ∧ w5.next = w.next + 1 ∧
                    w5.acquired = w.acquired + 1 ∧ w5.released = w.released := by
                  simpa [World.res] using hr5
                obtain ⟨h5l, h5n, h5a, h5r⟩ := h5
                split at h
                · rename_i heq
                  rcases newOverlapped_res w5 with ⟨e1, v1, hv, hres⟩ | ⟨v1, hv, hres⟩
                  · rw [hv] at heq
                    cases heq
                    rw [hr5] at hres
                    right; left
                    exact openFailed_of_res _ _ _ _ _ _ _ _ _ _ hres hm1 h
                  · rw [hv] at heq
                    cases heq
                · rename_i ro w6 heq6
                  have hr6 : w6.res = (w.live ++ [w.next + 1, w.next + 2], w.next + 2,
                      w.acquired + 2, w.released) := by
                    rcases newOverlapped_res w5 with ⟨e1, v1, hv, hres⟩ | ⟨v1, hv, hres⟩
                    · rw [hv] at heq6
                      cases heq6
                    · rw [hv] at heq6
                      cases heq6
                      rw [hres, h5l, h5n, h5a, h5r]
                      simp
                  split at h
                  · rename_i heq
                    rcases newOverlapped_res w6 with ⟨e1, v1, hv, hres⟩ | ⟨v1, hv, hres⟩
                    · rw [hv] at heq
                      cases heq
                      rw [hr6] at hres
                      right; right
                      exact openFailed_of_res _ _ _ _ _ _ _ _ _ _ hres (by simp) h
                    · rw [hv] at heq
                      cases heq
                  · cases h


/-- C7, as the code behaves at its last step: when the six native calls up to the creation
of the read completion object succeed and the creation of the write completion object
fails with error `e`, `open` returns that error having closed the device handle only; the
read completion object `w.next + 2` is still allocated (two objects acquired, one
released). -/
theorem openPort_write_event_failure_leaks (address q : String)
    (baudRate dataBits stopBits parity : Nat) (timeout : Int) (w : World)
    (a1 a2 a3 a4 a5 a6 e m : Nat) (rest : List Reply)
    (hq : qualifyAddress address = some q) (hnul : Char.ofNat 0 ∉ q.data)
    (hp : parityCode parity ≠ none) (hs : stopBitsCode stopBits ≠ none)
    (hscript : w.script = Reply.ok a1 :: Reply.ok a2 :: Reply.ok a3 :: Reply.ok a4 ::
      Reply.ok a5 :: Reply.ok a6 :: Reply.fail e m :: rest) :
    ∃ w1, openPort address baudRate dataBits stopBits parity timeout w =
        some (Except.error (Error.errno e), w1) ∧
      w1.acquired = w.acquired + 2 ∧ w1.released = w.released + 1 ∧
      w1.live = (w.live ++ [w.next + 1, w.next + 2]).erase (w.next + 1) ∧
      w.next + 2 ∈ w1.live := by
  obtain ⟨pc, hpc⟩ := Option.ne_none_iff_exists'.mp hp
  obtain ⟨sc, hsc⟩ := Option.ne_none_iff_exists'.mp hs
  refine ⟨{ script := rest,
            trace := w.trace ++
            [NativeCall.CreateFile q (0x80000000 ||| 0x40000000) 0 3 (0x80 ||| 0x40000000),
              NativeCall.SetCommState (w.next + 1)
                { DCBlength := 28, flags := [0x01 ||| 0x10, 0, 0, 0],
                  BaudRate := baudRate % 2 ^ 32, ByteSize := dataBits, Parity := pc,
                  StopBits := sc },
              NativeCall.SetupComm (w.next + 1) 64 64,
              NativeCall.SetCommTimeouts (w.next + 1)
                { ReadIntervalTimeout := toUint32 MAXDWORD,
                  ReadTotalTimeoutMultiplier := toUint32 MAXDWORD,
                  ReadTotalTimeoutConstant := toUint32 (timeoutMs timeout) },
              NativeCall.SetCommMask (w.next + 1) 0x0001,
              NativeCall.CreateEvent 1 0, NativeCall.CreateEvent 1 0,
              NativeCall.CloseHandle (w.next + 1)],
            live := (w.live ++ [w.next + 1, w.next + 2]).erase (w.next + 1),
            next := w.next + 2,
            acquired := w.acquired + 2,
            released := w.released + 1 }, ?_, rfl, rfl, rfl, ?_⟩
  · simp [openPort, hq, UTF16PtrFromString, hnul, World.call, hscript,
      setCommState, hpc, hsc, syscallBool, setupComm, setCommTimeouts, setCommMask,
      newOverlapped, World.alloc, openFailed, File.Close, World.closeHandle]
  · show w.next + 2 ∈ (w.live ++ [w.next + 1, w.next + 2]).erase (w.next + 1)
    have hne : w.next + 2 ≠ w.next + 1 := by simp
    rw [List.mem_erase_of_ne hne]
    simp

/-- C7 at `exampleSerial` in a fresh world whose seventh native call fails with error 8:
`Open` fails, the port stays nil, and the read event object 2 is still allocated. -/
theorem openPort_write_event_failure_leaks_witness :
    (qualifyAddress "COM3" = some "\\\\.\\COM3" ∧
      Char.ofNat 0 ∉ ("\\\\.\\COM3" : String).data ∧
      parityCode PARITY_NONE ≠ none ∧ stopBitsCode STOP_ONE ≠ none) ∧
    (∃ w1, openPort "COM3" 9600 8 STOP_ONE PARITY_NONE 1000000000
        { script := [Reply.ok 0, Reply.ok 0, Reply.ok 0, Reply.ok 0, Reply.ok 0, Reply.ok 0,
            Reply.fail 8 0] } = some (Except.error (Error.errno 8), w1) ∧
      w1.acquired = 2 ∧ w1.released = 1 ∧ w1.live = [2]) ∧
    ∃ w1, exampleSerial.Open
        { script := [Reply.ok 0, Reply.ok 0, Reply.ok 0, Reply.ok 0, Reply.ok 0, Reply.ok 0,
            Reply.fail 8 0] } = some (some (Error.errno 8), exampleSerial, w1) ∧
      w1.live = [2] := by
  refine ⟨⟨rfl, by decide, by decide, by decide⟩, ?_, ⟨_, rfl, rfl⟩⟩
  obtain ⟨w1, h1, h2, h3, h4, _⟩ := openPort_write_event_failure_leaks "COM3"
    "\\\\.\\COM3" 9600 8 STOP_ONE PARITY_NONE 1000000000
    { script := [Reply.ok 0, Reply.ok 0, Reply.ok 0, Reply.ok 0, Reply.ok 0, Reply.ok 0,
        Reply.fail 8 0] } 0 0 0 0 0 0 8 0 [] rfl (by decide) (by decide) (by decide) rfl
  exact ⟨w1, h1, h2, h3, h4⟩

end Serial
